import Mathlib

/-!
Verification development for the SubsPlease torrent-provider adapter
(src/SubsPlease.ts). The TypeScript source is shallowly embedded below:
pure functions become Lean functions, the network transport and the
host date facilities (new Date / toISOString) become injected
parameters, and JavaScript numbers produced by parseInt become
`Option Int` (with `none` playing the role of NaN).
-/

/-- Characters treated as leading whitespace by the JavaScript
number-parsing routines (the common ASCII whitespace set). -/
def jsIsSpace (c : Char) : Bool :=
  c = ' ' || c = '\t' || c = '\n' || c = '\r' || c = '\x0b' || c = '\x0c'

/-- Numeric value of a list of decimal digit characters. -/
def digitsToNat (ds : List Char) : Nat :=
  ds.foldl (fun acc c => acc * 10 + (c.toNat - '0'.toNat)) 0

/-- Embedding of JavaScript `parseInt(s, 10)`: skip leading whitespace,
accept an optional sign, read the longest prefix of decimal digits,
ignore the rest of the string; `none` models NaN (no digits found). -/
def jsParseInt (s : String) : Option Int :=
  let cs := s.toList.dropWhile jsIsSpace
  let signAndRest : Int × List Char :=
    match cs with
    | '-' :: r => (-1, r)
    | '+' :: r => (1, r)
    | r => (1, r)
  let ds := signAndRest.2.takeWhile Char.isDigit
  if ds.isEmpty then none else some (signAndRest.1 * (digitsToNat ds : Int))

/-- Embedding of `s.replace('p', '')` from the source: JavaScript
`String.prototype.replace` with a plain string argument removes only
the FIRST occurrence of the needle (here the single character p). -/
def replaceFirstP : List Char → List Char
  | [] => []
  | c :: rest => if c = 'p' then rest else c :: replaceFirstP rest

/-- The resolution-to-integer normalization used by `smartSearch` for
both the target and each torrent: `parseInt(x.replace('p', ''), 10)`. -/
def resValue (s : String) : Option Int :=
  jsParseInt (String.mk (replaceFirstP s.toList))

/-- Scan for the regex `btih:([a-zA-Z0-9]+)`: the first position where
the literal `btih:` is followed by at least one alphanumeric character;
the capture is the maximal alphanumeric run. On a failed attempt the
scan resumes at the next character, as a regex search does. -/
def findBtih : List Char → Option (List Char)
  | [] => none
  | 'b' :: 't' :: 'i' :: 'h' :: ':' :: after =>
    match after.takeWhile Char.isAlphanum with
    | [] => findBtih ('t' :: 'i' :: 'h' :: ':' :: after)
    | c :: cs => some (c :: cs)
  | _ :: rest => findBtih rest

/-- Embedding of `getHashFromMagnet`: the first `btih:`-prefixed
alphanumeric token, uppercased, or the empty string when absent. -/
def getHashFromMagnet (magnet : String) : String :=
  match findBtih magnet.toList with
  | some run => String.mk (run.map Char.toUpper)
  | none => ""

/-- Scan for the regex `xl=(\d+)`: the first position where the literal
`xl=` is followed by at least one decimal digit; the capture is the
maximal digit run. -/
def findXl : List Char → Option (List Char)
  | [] => none
  | 'x' :: 'l' :: '=' :: after =>
    match after.takeWhile Char.isDigit with
    | [] => findXl ('l' :: '=' :: after)
    | c :: cs => some (c :: cs)
  | _ :: rest => findXl rest

/-- Embedding of `getSizeFromMagnet`: the integer following `xl=`, or 0
when the parameter is absent (the captured token is all digits, so the
`parseInt` of the source is exactly its numeric value). -/
def getSizeFromMagnet (magnet : String) : Nat :=
  match findXl magnet.toList with
  | some ds => digitsToNat ds
  | none => 0

/-- Embedding of the API type `SubsPleaseDownload`. -/
structure SubsPleaseDownload where
  res : String
  magnet : String
deriving DecidableEq

/-- Embedding of the API type `SubsPleaseRelease`. The field `show` of
the source is a Lean keyword and is spelled `showTitle` here. -/
structure SubsPleaseRelease where
  showTitle : String
  episode : String
  downloads : List SubsPleaseDownload
  release_date : String
  page : String
deriving DecidableEq

/-- Embedding of the host type `AnimeTorrent` (the fields set by this
provider; the declaration file is external to the repository). -/
structure AnimeTorrent where
  name : String
  date : String
  size : Nat
  formattedSize : String
  seeders : Int
  leechers : Int
  downloadCount : Nat
  link : String
  downloadUrl : String
  magnetLink : String
  infoHash : String
  resolution : String
  isBatch : Bool
  episodeNumber : Int
  releaseGroup : String
  isBestRelease : Bool
  confirmed : Bool
deriving DecidableEq, Inhabited

/-- JavaScript `String(n)` for the result of `parseInt`: the decimal
rendering of the integer, or the literal text NaN when the parse
failed (the source interpolates the raw parse result into the name
before the `isNaN` substitution happens). -/
def jsNumToString : Option Int → String
  | none => String.mk ['N', 'a', 'N']
  | some n => toString n

/-- Embedding of `String.prototype.padStart(2, '0')`. -/
def padStart2 (s : String) : String :=
  if s.length < 2 then String.mk (List.replicate (2 - s.length) '0') ++ s else s

/-- Rendering of `(bytes / (1024 * 1024)).toFixed(2) + " MB"`. The
source computes this with IEEE-754 doubles; here it is rendered over
the rationals with round-half-up, which agrees except possibly on
representation-level ties. No claim depends on this field. -/
def formatMB (bytes : Nat) : String :=
  let centi := (bytes * 100 + 524288) / 1048576
  toString (centi / 100) ++ "." ++
    (if centi % 100 < 10 then "0" else "") ++ toString (centi % 100) ++ " MB"

/-- Embedding of `apiReleaseToAnimeTorrents`. The host date facilities
are injected: `parseDate s` is `new Date(s).toISOString()` when
`new Date(s)` is valid (`none` when its time is NaN), and `now` is
`new Date().toISOString()` at normalization time. One torrent is
produced per download, in source order. -/
def apiReleaseToAnimeTorrents (parseDate : String → Option String) (now : String)
    (release : SubsPleaseRelease) : List AnimeTorrent :=
  let episodeNumber := jsParseInt release.episode
  let date := (parseDate release.release_date).getD now
  release.downloads.map (fun download =>
    let resolution := download.res ++ "p"
    let sizeInBytes := getSizeFromMagnet download.magnet
    { name := "[SubsPlease] " ++ release.showTitle ++ " - " ++
        padStart2 (jsNumToString episodeNumber) ++ " (" ++ resolution ++ ") [" ++
        getHashFromMagnet download.magnet ++ "].mkv"
      date := date
      size := sizeInBytes
      formattedSize := if sizeInBytes > 0 then formatMB sizeInBytes else "N/A"
      seeders := -1
      leechers := -1
      downloadCount := 0
      link := "https://subsplease.org/shows/" ++ release.page ++ "/"
      downloadUrl := ""
      magnetLink := download.magnet
      infoHash := getHashFromMagnet download.magnet
      resolution := resolution
      isBatch := false
      episodeNumber := episodeNumber.getD (-1)
      releaseGroup := "SubsPlease"
      isBestRelease := false
      confirmed := true })

/-- The loop body of `fetchAndParseSearchResults` over the decoded JSON
object, modelled as an association list in iteration order: entries
whose episode label is the literal Batch are skipped, all others are
normalized and appended. -/
def buildTorrents (parseDate : String → Option String) (now : String) :
    List (String × SubsPleaseRelease) → List AnimeTorrent
  | [] => []
  | (_, release) :: rest =>
    (if release.episode = "Batch" then []
     else apiReleaseToAnimeTorrents parseDate now release) ++
      buildTorrents parseDate now rest

/-- The transport result for one HTTP GET: the status line and the
decoded JSON body (an object keyed by opaque release identifiers). -/
structure FetchResponse where
  ok : Bool
  status : Nat
  body : List (String × SubsPleaseRelease)

/-- Embedding of `fetchAndParseSearchResults` given the already-resolved
transport response: a non-ok response throws (modelled as `Except.error`
carrying the status code of the thrown message), otherwise the result
set is built from the body. -/
def fetchAndParseSearchResults (parseDate : String → Option String) (now : String)
    (response : FetchResponse) : Except Nat (List AnimeTorrent) :=
  if response.ok then
    Except.ok (buildTorrents parseDate now response.body)
  else
    Except.error response.status

/-- Embedding of `AnimeSearchOptions` (only the field the source reads). -/
structure AnimeSearchOptions where
  query : String

/-- The media descriptor fields read by `smartSearch`; the declaration
file is external to the repository. -/
structure SmartSearchMedia where
  romajiTitle : String
  englishTitle : String
  absoluteSeasonOffset : Int

/-- Embedding of `AnimeSmartSearchOptions` (the fields the source reads). -/
structure AnimeSmartSearchOptions where
  query : String
  episodeNumber : Int
  resolution : String
  batch : Bool
  media : SmartSearchMedia

/-- JavaScript `a || b` on strings: the empty string is falsy. -/
def strOr (a b : String) : String :=
  if a = "" then b else a

/-- The query resolution of `smartSearch`:
`opts.query || opts.media.romajiTitle || opts.media.englishTitle || ""`. -/
def resolveQuery (opts : AnimeSmartSearchOptions) : String :=
  strOr opts.query (strOr opts.media.romajiTitle (strOr opts.media.englishTitle ""))

/-- The episode-filtering block of `smartSearch`: when the requested
episode number is positive, keep the non-batch torrents whose episode
number is the target or the target plus the absolute season offset. -/
def episodeStep (opts : AnimeSmartSearchOptions) (filtered : List AnimeTorrent) :
    List AnimeTorrent :=
  if opts.episodeNumber > 0 then
    let absoluteEpisode := opts.media.absoluteSeasonOffset + opts.episodeNumber
    filtered.filter (fun t =>
      !t.isBatch && (t.episodeNumber == opts.episodeNumber || t.episodeNumber == absoluteEpisode))
  else filtered

/-- The resolution-filtering block of `smartSearch`: a non-empty target
is normalized with `parseInt(r.replace('p', ''), 10)`; when that parse
succeeds, keep the torrents whose similarly normalized resolution is
the same integer; when it fails (`isNaN`), the filter is skipped. -/
def resolutionStep (opts : AnimeSmartSearchOptions) (filtered : List AnimeTorrent) :
    List AnimeTorrent :=
  if opts.resolution ≠ "" then
    match resValue opts.resolution with
    | some targetRes =>
      filtered.filter (fun t => resValue t.resolution == some targetRes)
    | none => filtered
  else filtered

/-- Embedding of `getLatest`: fetch with the empty query and return the
full normalized set. The transport is an injected map from the query
string to the response. -/
def getLatest (parseDate : String → Option String) (now : String)
    (transport : String → FetchResponse) : Except Nat (List AnimeTorrent) :=
  fetchAndParseSearchResults parseDate now (transport "")

/-- Embedding of `search`: fetch with the query supplied by the caller
and return the full normalized set. -/
def search (parseDate : String → Option String) (now : String)
    (transport : String → FetchResponse) (opts : AnimeSearchOptions) :
    Except Nat (List AnimeTorrent) :=
  fetchAndParseSearchResults parseDate now (transport opts.query)

/-- Embedding of `smartSearch`: an immediate empty result for a batch
request, otherwise fetch with the resolved query and run the two filter
blocks in order. -/
def smartSearch (parseDate : String → Option String) (now : String)
    (transport : String → FetchResponse) (opts : AnimeSmartSearchOptions) :
    Except Nat (List AnimeTorrent) :=
  if opts.batch then
    Except.ok []
  else
    match fetchAndParseSearchResults parseDate now (transport (resolveQuery opts)) with
    | Except.error s => Except.error s
    | Except.ok allTorrents => Except.ok (resolutionStep opts (episodeStep opts allTorrents))

/-- Embedding of `getTorrentMagnetLink`: `torrent.magnetLink || ""`. -/
def getTorrentMagnetLink (torrent : AnimeTorrent) : String :=
  strOr torrent.magnetLink ""

/-- A synthetic torrent entity with the given resolution label and
episode number; the remaining fields are irrelevant to the filter
steps, which read only `resolution`, `episodeNumber` and `isBatch`. -/
def mkSampleTorrent (resolution : String) (episodeNumber : Int) : AnimeTorrent where
  name := ""
  date := ""
  size := 0
  formattedSize := ""
  seeders := -1
  leechers := -1
  downloadCount := 0
  link := ""
  downloadUrl := ""
  magnetLink := ""
  infoHash := ""
  resolution := resolution
  isBatch := false
  episodeNumber := episodeNumber
  releaseGroup := ""
  isBestRelease := false
  confirmed := true

/-- The end-to-end sample release of the specification. -/
def sampleRelease : SubsPleaseRelease where
  showTitle := "X"
  episode := "3"
  downloads := [{ res := "720", magnet := "magnet:?xt=urn:btih:HASH1&xl=500" }]
  release_date := "2024-01-01T00:00:00Z"
  page := "x"

/-- A sample release whose episode label is the batch sentinel. -/
def sampleBatchRelease : SubsPleaseRelease where
  showTitle := "Y"
  episode := "Batch"
  downloads := [{ res := "1080", magnet := "magnet:?xt=urn:btih:HASH2&xl=7" }]
  release_date := "2024-01-02T00:00:00Z"
  page := "y"

/-- A sample release whose episode label carries a negative sign. -/
def negativeEpisodeRelease : SubsPleaseRelease where
  showTitle := "Z"
  episode := "-5"
  downloads := [{ res := "720", magnet := "" }]
  release_date := ""
  page := "z"

/-- A sample injected date parser that always succeeds. -/
def pdW : String → Option String := fun _ => some "2024-01-01T00:00:00.000Z"

/-- The torrent produced by the normalizer for `sampleRelease` under
`pdW`, used to discharge membership hypotheses at a concrete input. -/
def producedW : AnimeTorrent :=
  (apiReleaseToAnimeTorrents pdW "2025-01-01T00:00:00.000Z" sampleRelease).headD default

/-- Smart-search options targeting episode 5 with absolute offset 12. -/
def opts5 : AnimeSmartSearchOptions where
  query := "q"
  episodeNumber := 5
  resolution := ""
  batch := false
  media := { romajiTitle := "", englishTitle := "", absoluteSeasonOffset := 12 }

/-- Smart-search options targeting resolution 1080p. -/
def optsR : AnimeSmartSearchOptions where
  query := "q"
  episodeNumber := 0
  resolution := "1080p"
  batch := false
  media := { romajiTitle := "", englishTitle := "", absoluteSeasonOffset := 0 }

/-- Smart-search options with the non-empty but unparsable resolution
target p (its normalization removes the p and parses the empty string). -/
def optsP : AnimeSmartSearchOptions where
  query := ""
  episodeNumber := 0
  resolution := "p"
  batch := false
  media := { romajiTitle := "", englishTitle := "", absoluteSeasonOffset := 0 }

/-- Smart-search options with the non-empty unparsable resolution target x. -/
def optsX : AnimeSmartSearchOptions where
  query := ""
  episodeNumber := 0
  resolution := "x"
  batch := false
  media := { romajiTitle := "", englishTitle := "", absoluteSeasonOffset := 0 }

/-- Smart-search options with the batch flag set. -/
def optsBatch : AnimeSmartSearchOptions where
  query := "q"
  episodeNumber := 5
  resolution := "1080p"
  batch := true
  media := { romajiTitle := "r", englishTitle := "e", absoluteSeasonOffset := 12 }

/-- A transport response with a non-success status. -/
def failResp : FetchResponse where
  ok := false
  status := 503
  body := [("1", sampleRelease)]

/-- A transport response with a success status and an empty body. -/
def okResp : FetchResponse where
  ok := true
  status := 200
  body := []

/-- Concatenation distributes over the result-set builder. -/
theorem buildTorrents_append (parseDate : String → Option String) (now : String)
    (a b : List (String × SubsPleaseRelease)) :
    buildTorrents parseDate now (a ++ b) =
      buildTorrents parseDate now a ++ buildTorrents parseDate now b := by
  induction a with
  | nil => simp [buildTorrents]
  | cons kv rest ih =>
    cases kv
    simp [buildTorrents, ih]

/-- The claim C6 of the specification: the Magnet Parser extracts the
uppercased alphanumeric token after `btih:` (empty string when absent)
and the integer after `xl=` (0 when absent), never failing; checked on
the two contract examples of the specification. -/
theorem magnet_parser_contract_examples :
    getHashFromMagnet "magnet:?xt=urn:btih:ABCD1234&xl=1048576" = "ABCD1234" ∧
    getSizeFromMagnet "magnet:?xt=urn:btih:ABCD1234&xl=1048576" = 1048576 ∧
    getHashFromMagnet "magnet:?xt=urn:btih:" = "" ∧
    getSizeFromMagnet "magnet:?xt=urn:btih:" = 0 := by
  decide

/-- The claim C2 of the specification: a payload entry whose episode
label is the literal Batch contributes zero entities to the built
result set, wherever it sits in the payload; the builder never reads
the query or any batch-request flag, so this holds unconditionally. -/
theorem builder_drops_batch_entries (parseDate : String → Option String) (now : String)
    (key : String) (release : SubsPleaseRelease)
    (pre post : List (String × SubsPleaseRelease))
    (h : release.episode = "Batch") :
    buildTorrents parseDate now (pre ++ (key, release) :: post) =
      buildTorrents parseDate now (pre ++ post) := by
  simp [buildTorrents_append, buildTorrents, h]

/-- Witness for C2 at a concrete payload: a batch entry between two
normal entries contributes nothing. -/
theorem builder_drops_batch_entries_witness :
    sampleBatchRelease.episode = "Batch" ∧
    buildTorrents pdW "N" ([("1", sampleRelease)] ++ ("2", sampleBatchRelease) :: [("3", sampleRelease)]) =
      buildTorrents pdW "N" ([("1", sampleRelease)] ++ [("3", sampleRelease)]) :=
  ⟨by decide, builder_drops_batch_entries pdW "N" "2" sampleBatchRelease
    [("1", sampleRelease)] [("3", sampleRelease)] (by decide)⟩

/-- The claim C3 of the specification: a non-batch release with k
downloads normalizes to exactly k entities, in source download order,
whose resolution labels are the quality labels with p appended. -/
theorem normalizer_one_entity_per_download (parseDate : String → Option String)
    (now : String) (release : SubsPleaseRelease) (h : release.episode ≠ "Batch") :
    (apiReleaseToAnimeTorrents parseDate now release).length = release.downloads.length ∧
    (apiReleaseToAnimeTorrents parseDate now release).map (fun t => t.resolution) =
      release.downloads.map (fun d => d.res ++ "p") := by
  constructor
  · simp [apiReleaseToAnimeTorrents]
  · simp [apiReleaseToAnimeTorrents]

/-- Witness for C3 at the sample release with one 720 download. -/
theorem normalizer_one_entity_per_download_witness :
    sampleRelease.episode ≠ "Batch" ∧
    ((apiReleaseToAnimeTorrents pdW "N" sampleRelease).length = sampleRelease.downloads.length ∧
     (apiReleaseToAnimeTorrents pdW "N" sampleRelease).map (fun t => t.resolution) =
       sampleRelease.downloads.map (fun d => d.res ++ "p")) :=
  ⟨by decide, normalizer_one_entity_per_download pdW "N" sampleRelease (by decide)⟩

/-- The claim C4 of the specification: with a positive target episode
number, the episode-filtering step keeps exactly the non-batch entities
whose episode number is the target or the target plus the absolute
season offset (the source computes offset + target; + is commutative). -/
theorem episode_filter_keeps_target_or_absolute (opts : AnimeSmartSearchOptions)
    (ts : List AnimeTorrent) (t : AnimeTorrent) (h : opts.episodeNumber > 0) :
    t ∈ episodeStep opts ts ↔
      t ∈ ts ∧ t.isBatch = false ∧
        (t.episodeNumber = opts.episodeNumber ∨
         t.episodeNumber = opts.media.absoluteSeasonOffset + opts.episodeNumber) := by
  simp [episodeStep, h, List.mem_filter, and_assoc]

/-- Witness for C4: target 5 with offset 12 keeps an entity with
episode number 17. -/
theorem episode_filter_keeps_target_or_absolute_witness :
    opts5.episodeNumber > 0 ∧
    (mkSampleTorrent "1080p" 17 ∈
        episodeStep opts5 [mkSampleTorrent "1080p" 17, mkSampleTorrent "1080p" 6] ↔
      mkSampleTorrent "1080p" 17 ∈ [mkSampleTorrent "1080p" 17, mkSampleTorrent "1080p" 6] ∧
      (mkSampleTorrent "1080p" 17).isBatch = false ∧
        ((mkSampleTorrent "1080p" 17).episodeNumber = opts5.episodeNumber ∨
         (mkSampleTorrent "1080p" 17).episodeNumber =
           opts5.media.absoluteSeasonOffset + opts5.episodeNumber)) :=
  ⟨by decide, episode_filter_keeps_target_or_absolute opts5
    [mkSampleTorrent "1080p" 17, mkSampleTorrent "1080p" 6] (mkSampleTorrent "1080p" 17)
    (by decide)⟩

/-- The claim C5 of the specification: a smart search with the batch
flag set returns the empty list whatever the query, episode number,
offset, resolution, transport and clock are. -/
theorem smartSearch_batch_returns_empty (parseDate : String → Option String)
    (now : String) (transport : String → FetchResponse)
    (opts : AnimeSmartSearchOptions) (h : opts.batch = true) :
    smartSearch parseDate now transport opts = Except.ok [] := by
  simp [smartSearch, h]

/-- Witness for C5 at a concrete batch request. -/
theorem smartSearch_batch_returns_empty_witness :
    optsBatch.batch = true ∧
    smartSearch pdW "N" (fun _ => okResp) optsBatch = Except.ok [] :=
  ⟨by decide, smartSearch_batch_returns_empty pdW "N" (fun _ => okResp) optsBatch (by decide)⟩

/-- The claim C7 of the specification: when the transport response
reports a non-success status, getLatest, search and smartSearch (once
its fetch is reached, i.e. for a non-batch request) all fail with an
error carrying the status code and produce no partial result. -/
theorem fetch_failure_propagates (parseDate : String → Option String) (now : String)
    (resp : FetchResponse) (sopts : AnimeSearchOptions)
    (mopts : AnimeSmartSearchOptions) (h : resp.ok = false)
    (hb : mopts.batch = false) :
    getLatest parseDate now (fun _ => resp) = Except.error resp.status ∧
    search parseDate now (fun _ => resp) sopts = Except.error resp.status ∧
    smartSearch parseDate now (fun _ => resp) mopts = Except.error resp.status := by
  refine ⟨?_, ?_, ?_⟩ <;>
    simp [getLatest, search, smartSearch, fetchAndParseSearchResults, h, hb]

/-- Witness for C7 at a concrete 503 response. -/
theorem fetch_failure_propagates_witness :
    failResp.ok = false ∧ optsR.batch = false ∧
    (getLatest pdW "N" (fun _ => failResp) = Except.error failResp.status ∧
     search pdW "N" (fun _ => failResp) { query := "q" } = Except.error failResp.status ∧
     smartSearch pdW "N" (fun _ => failResp) optsR = Except.error failResp.status) :=
  ⟨by decide, by decide,
    fetch_failure_propagates pdW "N" failResp { query := "q" } optsR (by decide) (by decide)⟩

/-- The claim C8 of the specification: every normalized torrent carries
as its date the output of the injected date parser on the source
release timestamp when that parse succeeds, and the normalization clock
reading otherwise; in the source both alternatives are toISOString
renderings, hence valid ISO-8601 strings and never null. -/
theorem normalized_date_parse_or_now (parseDate : String → Option String) (now : String)
    (release : SubsPleaseRelease) (t : AnimeTorrent)
    (h : t ∈ apiReleaseToAnimeTorrents parseDate now release) :
    (∃ v, parseDate release.release_date = some v ∧ t.date = v) ∨
    (parseDate release.release_date = none ∧ t.date = now) := by
  simp only [apiReleaseToAnimeTorrents, List.mem_map] at h
  obtain ⟨d, _, rfl⟩ := h
  cases hcase : parseDate release.release_date with
  | none => exact Or.inr ⟨rfl, rfl⟩
  | some v => exact Or.inl ⟨v, rfl, rfl⟩

/-- Witness for C8 at the sample release under an always-succeeding
date parser. -/
theorem normalized_date_parse_or_now_witness :
    producedW ∈ apiReleaseToAnimeTorrents pdW "2025-01-01T00:00:00.000Z" sampleRelease ∧
    ((∃ v, pdW sampleRelease.release_date = some v ∧ producedW.date = v) ∨
     (pdW sampleRelease.release_date = none ∧ producedW.date = "2025-01-01T00:00:00.000Z")) :=
  ⟨by decide,
    normalized_date_parse_or_now pdW "2025-01-01T00:00:00.000Z" sampleRelease producedW
      (by decide)⟩

/-- The counterexample to the claim C9 as stated: the episode label -5
parses successfully (parseInt accepts a sign), so the produced entity
has episode number -5, which is negative yet is not the failure
sentinel: the episode number is not always -1-or-non-negative. -/
theorem episode_number_claim_counterexample :
    jsParseInt negativeEpisodeRelease.episode = some (-5) ∧
    (apiReleaseToAnimeTorrents pdW "N" negativeEpisodeRelease).map (fun t => t.episodeNumber) =
      [-5] := by
  decide

/-- The claim C9 as amended: every normalized torrent's episode number
is the integer parse of the source episode label when that parse
succeeds (a value that may be negative, since the parser accepts a
leading sign) and the sentinel -1 when it fails. -/
theorem episode_number_parse_or_sentinel (parseDate : String → Option String) (now : String)
    (release : SubsPleaseRelease) (t : AnimeTorrent)
    (h : t ∈ apiReleaseToAnimeTorrents parseDate now release) :
    t.episodeNumber = (jsParseInt release.episode).getD (-1) := by
  simp only [apiReleaseToAnimeTorrents, List.mem_map] at h
  obtain ⟨d, _, rfl⟩ := h
  rfl

/-- Witness for C9 at the sample release, whose episode label 3 parses. -/
theorem episode_number_parse_or_sentinel_witness :
    producedW ∈ apiReleaseToAnimeTorrents pdW "2025-01-01T00:00:00.000Z" sampleRelease ∧
    producedW.episodeNumber = (jsParseInt sampleRelease.episode).getD (-1) :=
  ⟨by decide,
    episode_number_parse_or_sentinel pdW "2025-01-01T00:00:00.000Z" sampleRelease producedW
      (by decide)⟩

/-- The counterexample to the claim C1 as stated: the target p is a
non-empty resolution label whose normalization fails to parse, so no
entity can be numerically equal to the parsed target; yet the filter
keeps an entity whose own label parses to 1080 — the step does not keep
exactly the numerically-equal entities for every non-empty target. -/
theorem resolution_filter_claim_counterexample :
    optsP.resolution = "p" ∧
    resValue optsP.resolution = none ∧
    resValue (mkSampleTorrent "1080p" 1).resolution = some 1080 ∧
    resolutionStep optsP [mkSampleTorrent "1080p" 1] = [mkSampleTorrent "1080p" 1] := by
  decide

/-- The claim C1 as amended: an empty target imposes no constraint; a
target whose normalization (drop the first p, then integer parse)
fails imposes no constraint either; and for a target that normalizes to
the integer n, the step keeps exactly the entities whose resolution
label normalizes to the same n — numeric, not string, equality, and an
entity whose resolution fails to parse is never kept. -/
theorem resolution_filter_numeric_match (opts : AnimeSmartSearchOptions)
    (ts : List AnimeTorrent) :
    (opts.resolution = "" → resolutionStep opts ts = ts) ∧
    (resValue opts.resolution = none → resolutionStep opts ts = ts) ∧
    (∀ n, resValue opts.resolution = some n →
      ∀ t, t ∈ resolutionStep opts ts ↔ t ∈ ts ∧ resValue t.resolution = some n) := by
  refine ⟨?_, ?_, ?_⟩
  · intro h
    simp [resolutionStep, h]
  · intro h
    by_cases he : opts.resolution = ""
    · simp [resolutionStep, he]
    · simp [resolutionStep, he, h]
  · intro n hn t
    have he : ¬(opts.resolution = "") := by
      intro he
      have h0 : resValue "" = none := by decide
      rw [he, h0] at hn
      exact Option.noConfusion hn
    simp [resolutionStep, he, hn, List.mem_filter]

/-- Witness for the amended C1: target 1080p keeps a 1080p entity of a
two-entity set by numeric equality. -/
theorem resolution_filter_numeric_match_witness :
    resValue optsR.resolution = some 1080 ∧
    (mkSampleTorrent "1080p" 1 ∈
        resolutionStep optsR [mkSampleTorrent "1080p" 1, mkSampleTorrent "720p" 2] ↔
      mkSampleTorrent "1080p" 1 ∈ [mkSampleTorrent "1080p" 1, mkSampleTorrent "720p" 2] ∧
      resValue (mkSampleTorrent "1080p" 1).resolution = some 1080) :=
  ⟨by decide,
    (resolution_filter_numeric_match optsR
      [mkSampleTorrent "1080p" 1, mkSampleTorrent "720p" 2]).2.2 1080 (by decide)
      (mkSampleTorrent "1080p" 1)⟩

/-- The claim C10 of the specification: a non-empty target resolution
whose normalization fails to parse skips the resolution-filtering block
entirely, so every entity is kept, of whatever resolution. -/
theorem resolution_filter_skipped_on_unparsable_target (opts : AnimeSmartSearchOptions)
    (ts : List AnimeTorrent) (h1 : opts.resolution ≠ "")
    (h2 : resValue opts.resolution = none) :
    resolutionStep opts ts = ts := by
  simp [resolutionStep, h1, h2]

/-- Witness for C10: the unparsable target x keeps a mixed-resolution
set unchanged. -/
theorem resolution_filter_skipped_on_unparsable_target_witness :
    optsX.resolution ≠ "" ∧ resValue optsX.resolution = none ∧
    resolutionStep optsX [mkSampleTorrent "720p" 1, mkSampleTorrent "garbage" 2] =
      [mkSampleTorrent "720p" 1, mkSampleTorrent "garbage" 2] :=
  ⟨by decide, by decide,
    resolution_filter_skipped_on_unparsable_target optsX
      [mkSampleTorrent "720p" 1, mkSampleTorrent "garbage" 2] (by decide) (by decide)⟩
